import Mathlib

/-!
Verification of the span-aggregation algorithm of
`allennlp/modules/token_embedders/pretrained_transformer_mismatched_embedder.py`.

The embedder's `forward` consumes per-wordpiece embeddings (shape
`[batch, num_wordpieces, embedding_size]`) produced by the wrapped
`PretrainedTransformerEmbedder`, together with an `offsets` tensor of shape
`[batch, num_orig_tokens, 2]` mapping every original token to an inclusive
wordpiece span `[start, end]`, and pools each span into one vector per
original token under `sub_token_mode` "first" or "avg" (lines 114-171 of the
source).  Tensors are modelled as functions out of `Fin`-typed index spaces
with rational entries; the external transformer encoder is out of scope and
its output is taken as the `embeddings` input.
-/

namespace MismatchedEmbedder

/-- Inputs consumed by the aggregation part of `forward` (source lines
114-171).  `embeddings` is the `[batch, num_wordpieces, embedding_size]`
output of the wrapped matched embedder (line 115), `mask` is the
original-token mask argument (never used by the aggregation), and `offsets`
holds the inclusive `[start, end]` wordpiece span of every original token. -/
structure AggInput (B W N E : Nat) where
  embeddings : Fin B → Fin W → Fin E → ℚ
  mask : Fin B → Fin N → Bool
  offsets : Fin B → Fin N → Int × Int

/-- Width of a span `(start, end)`, i.e. `end - start`; the span covers
`width + 1` wordpieces when non-negative and is empty when negative
(e.g. the padding sentinel `(0, -1)`). -/
def span_width (se : Int × Int) : Int := se.2 - se.1

/-- Largest span width occurring anywhere in the batch (`-1` when every
span is empty), folded over all (batch element, original token) pairs. -/
def max_width {B N : Nat} (offsets : Fin B → Fin N → Int × Int) : Int :=
  Finset.univ.fold max (-1) (fun p : Fin B × Fin N => span_width (offsets p.1 p.2))

/-- `max_span_length` of source line 124: the number of sub-token slots every
span is padded to, i.e. the largest span length occurring in the batch. -/
def max_span_length {B N : Nat} (offsets : Fin B → Fin N → Int × Int) : Nat :=
  (max_width offsets + 1).toNat

/-- Wordpiece embedding at integer index `i` of batch element `b`; indices
outside `[0, W)` yield the zero vector (out-of-range offsets are undefined
behaviour per the spec, section 7). -/
def emb_at {B W E : Nat} (emb : Fin B → Fin W → Fin E → ℚ) (b : Fin B) (i : Int) :
    Fin E → ℚ :=
  if h : 0 ≤ i ∧ i.toNat < W then emb b ⟨i.toNat, h.2⟩ else 0

/-- Modelled from the spec: the span-validity mask returned by
`util.batched_span_select` (source line 121), whose implementation lives in
`allennlp/nn/util.py`, outside the provided sources.  Spec section 4.2 step 1:
a boolean mask over the `max_span_length` padded slots "marking which padded
positions are real sub-tokens", i.e. slot `k` of the span `(start, end)` is
valid exactly when `k ≤ end - start`. -/
def span_select_mask {B W N E : Nat} (inp : AggInput B W N E) (b : Fin B) (t : Fin N)
    (k : Nat) : Bool :=
  decide ((k : Int) ≤ span_width (inp.offsets b t))

/-- Modelled from the spec: the span-embedding tensor returned by
`util.batched_span_select` (source line 121), whose implementation lives in
`allennlp/nn/util.py`, outside the provided sources.  Spec section 4.2 step 1:
for each original token, "gather the contiguous slice of wordpiece embeddings
between `start` and `end` inclusive into a per-token span, right-padded to
`max_span_length`"; valid slot `k` holds the wordpiece embedding at index
`start + k`, padding slots hold the zero vector. -/
def span_select_embeddings {B W N E : Nat} (inp : AggInput B W N E) (b : Fin B) (t : Fin N)
    (k : Nat) : Fin E → ℚ :=
  if span_select_mask inp b t k then emb_at inp.embeddings b ((inp.offsets b t).1 + k) else 0

/-- Numeric value of a boolean mask entry, as used by the in-place
multiplications `span_embeddings *= span_mask` (source lines 139 and 151). -/
def mask_q (m : Bool) : ℚ := if m then 1 else 0

/-- The "first" branch of `forward` (source lines 127-144).  Line 129 builds
`span_mask_bool = torch.zeros(..., dtype=torch.bool)` and line 135 compares
`torch.arange(max_span_length) <= span_mask_bool`; the all-`False` tensor is
promoted to `0`, so slot `k` is kept exactly when `(k : Int) ≤ 0`.  The kept
slots are multiplied into the span embeddings (line 139) and summed over the
span dimension (line 144). -/
def first_agg {B W N E : Nat} (inp : AggInput B W N E) (b : Fin B) (t : Fin N) :
    Fin E → ℚ :=
  ∑ k in Finset.range (max_span_length inp.offsets),
    mask_q (decide ((k : Int) ≤ 0)) • span_select_embeddings inp b t k

/-- `span_embeddings_len` of source line 158: the number of valid sub-token
slots of the token's span. -/
def span_len {B W N E : Nat} (inp : AggInput B W N E) (b : Fin B) (t : Fin N) : Nat :=
  ∑ k in Finset.range (max_span_length inp.offsets),
    if span_select_mask inp b t k then 1 else 0

/-- `span_embeddings_sum` of source line 155: span embeddings with padding
slots zeroed by the mask multiplication of line 151, summed over the span
dimension. -/
def avg_sum {B W N E : Nat} (inp : AggInput B W N E) (b : Fin B) (t : Fin N) :
    Fin E → ℚ :=
  ∑ k in Finset.range (max_span_length inp.offsets),
    mask_q (span_select_mask inp b t k) • span_select_embeddings inp b t k

/-- The division of source line 162: `span_embeddings_sum` divided by
`torch.clamp_min(span_embeddings_len, 1)`. -/
def avg_raw {B W N E : Nat} (inp : AggInput B W N E) (b : Fin B) (t : Fin N) :
    Fin E → ℚ :=
  (1 / ((max (span_len inp b t) 1 : ℕ) : ℚ)) • avg_sum inp b t

/-- The "avg" branch of `forward` (source lines 147-165): the clamped
division of line 162 followed by the overwrite of line 165, which writes the
zero vector wherever `span_embeddings_len == 0`. -/
def avg_agg {B W N E : Nat} (inp : AggInput B W N E) (b : Fin B) (t : Fin N) :
    Fin E → ℚ :=
  if span_len inp b t = 0 then 0 else avg_raw inp b t

/-- The mode dispatch of `forward` (source lines 127, 147 and 167-169): the
"first" branch, then the "avg" branch, and otherwise
`raise ValueError("Do not recognise 'sub_token_mode' {}".format(...))`. -/
def forward {B W N E : Nat} (sub_token_mode : String) (inp : AggInput B W N E) :
    Except String (Fin B → Fin N → Fin E → ℚ) :=
  if sub_token_mode = "first" then Except.ok (fun b t => first_agg inp b t)
  else if sub_token_mode = "avg" then Except.ok (fun b t => avg_agg inp b t)
  else Except.error ("Do not recognise 'sub_token_mode' " ++ sub_token_mode)

/-- The state a `PretrainedTransformerMismatchedEmbedder` instance carries
into `forward`: `__init__` (source lines 52-74) stores `sub_token_mode`
unvalidated on `self` (line 74); the wrapped matched embedder is external. -/
structure PretrainedTransformerMismatchedEmbedder where
  sub_token_mode : String

/-- `__init__` of source lines 52-74 restricted to the field the aggregation
reads: it stores any `sub_token_mode` string without validating it. -/
def mk_embedder (sub_token_mode : String) : PretrainedTransformerMismatchedEmbedder :=
  ⟨sub_token_mode⟩

/-- One call of `forward` on an embedder instance, threading the instance
state explicitly: the method body (source lines 80-171) reads
`self.sub_token_mode` and assigns nothing to `self`, so the state after the
call is the state before it. -/
def forward_call {B W N E : Nat} (self : PretrainedTransformerMismatchedEmbedder)
    (inp : AggInput B W N E) :
    Except String (Fin B → Fin N → Fin E → ℚ) × PretrainedTransformerMismatchedEmbedder :=
  (forward self.sub_token_mode inp, self)

/-- A tensor value held by one buffer during a `forward` call: the adapter
output `[B, W, E]`, the span embeddings `[B, N, max_span_length, E]`, a span
mask `[B, N, max_span_length]`, the per-token valid sub-token counts
`[B, N]`, or an original-token embedding tensor `[B, N, E]`. -/
inductive TVal (B W N E : Nat) where
  | t3 (v : Fin B → Fin W → Fin E → ℚ)
  | t4 (v : Fin B → Fin N → Nat → Fin E → ℚ)
  | tmask (v : Fin B → Fin N → Nat → Bool)
  | tlen (v : Fin B → Fin N → Nat)
  | tout (v : Fin B → Fin N → Fin E → ℚ)

/-- The call-scoped buffer store of one `forward` invocation: buffer ids are
positions in the list; every tensor of the call lives in exactly one buffer. -/
abbrev Store (B W N E : Nat) := List (TVal B W N E)

/-- Allocate a fresh buffer holding `v`, returning its id. -/
def alloc {B W N E : Nat} (s : Store B W N E) (v : TVal B W N E) : Nat × Store B W N E :=
  (s.length, s ++ [v])

/-- Overwrite buffer `i` in place (the effect of the in-place torch
operations `*=` and indexed assignment). -/
def store_write {B W N E : Nat} (s : Store B W N E) (i : Nat) (v : TVal B W N E) :
    Store B W N E :=
  s.set i v

/-- Read buffer `i`. -/
def store_read {B W N E : Nat} (s : Store B W N E) (i : Nat) : Option (TVal B W N E) :=
  s.get? i

/-- `forward` (source lines 114-171) replayed over an explicit buffer store,
recording which tensor every torch operation allocates and which buffer every
in-place operation overwrites.  Line 115 allocates the adapter output; line
121 allocates `span_embeddings` and `span_mask` (the `.contiguous()` view of
the adapter output is only read); lines 129 and 135 allocate the two masks of
the "first" branch; lines 139 and 151 overwrite `span_embeddings` in place;
lines 144, 155, 158 and 162 allocate their results; line 165 overwrites
`orig_embeddings` in place.  Returns the id of the returned tensor together
with the final store. -/
def forward_store {B W N E : Nat} (sub_token_mode : String) (inp : AggInput B W N E) :
    Except String (Nat × Store B W N E) :=
  let (_embId, s0) := alloc ([] : Store B W N E) (TVal.t3 inp.embeddings)
  let (spanId, s1) := alloc s0 (TVal.t4 (fun b t k => span_select_embeddings inp b t k))
  let (_maskId, s2) := alloc s1 (TVal.tmask (fun b t k => span_select_mask inp b t k))
  if sub_token_mode = "first" then
    let (_zerosId, s3) := alloc s2 (TVal.tmask (fun _ _ _ => false))
    let (_firstMaskId, s4) := alloc s3 (TVal.tmask (fun _ _ k => decide ((k : Int) ≤ 0)))
    let s5 := store_write s4 spanId
      (TVal.t4 (fun b t k => mask_q (decide ((k : Int) ≤ 0)) • span_select_embeddings inp b t k))
    let (origId, s6) := alloc s5 (TVal.tout (fun b t => first_agg inp b t))
    Except.ok (origId, s6)
  else if sub_token_mode = "avg" then
    let s3 := store_write s2 spanId
      (TVal.t4 (fun b t k => mask_q (span_select_mask inp b t k) • span_select_embeddings inp b t k))
    let (_sumId, s4) := alloc s3 (TVal.tout (fun b t => avg_sum inp b t))
    let (_lenId, s5) := alloc s4 (TVal.tlen (fun b t => span_len inp b t))
    let (origId, s6) := alloc s5 (TVal.tout (fun b t => avg_raw inp b t))
    let s7 := store_write s6 origId (TVal.tout (fun b t => avg_agg inp b t))
    Except.ok (origId, s7)
  else Except.error ("Do not recognise 'sub_token_mode' " ++ sub_token_mode)

/-- Concrete input of the single-token scenario: one batch element, three
wordpieces `[[1,1],[3,3],[5,5]]` with embedding size 2, one original token
spanning wordpieces 0 to 2 inclusive. -/
def inpC5 : AggInput 1 3 1 2 where
  embeddings := fun _ => ![![1, 1], ![3, 3], ![5, 5]]
  mask := fun _ _ => true
  offsets := fun _ _ => (0, 2)

/-- Concrete input of the two-token scenario: one batch element, three
wordpieces `[[2,0],[4,0],[6,0]]`, two original tokens with spans `[0,0]`
and `[1,2]`. -/
def inpC6 : AggInput 1 3 2 2 where
  embeddings := fun _ => ![![2, 0], ![4, 0], ![6, 0]]
  mask := fun _ _ => true
  offsets := fun _ => ![(0, 0), (1, 2)]

/-- Concrete input with a single padding token carrying the sentinel span
`(0, -1)` (empty), over one wordpiece with the non-zero embedding `[5,7]`. -/
def inpPad : AggInput 1 1 1 2 where
  embeddings := fun _ _ => ![5, 7]
  mask := fun _ _ => false
  offsets := fun _ _ => (0, -1)

theorem span_width_le_max_width {B N : Nat} (offsets : Fin B → Fin N → Int × Int)
    (b : Fin B) (t : Fin N) : span_width (offsets b t) ≤ max_width offsets :=
  (Finset.le_fold_max _).mpr (Or.inr ⟨(b, t), Finset.mem_univ _, le_rfl⟩)

theorem span_slot_lt_max_span_length {B N : Nat} (offsets : Fin B → Fin N → Int × Int)
    (b : Fin B) (t : Fin N) (k : Nat) (hk : (k : Int) ≤ span_width (offsets b t)) :
    k < max_span_length offsets := by
  have h := span_width_le_max_width offsets b t
  unfold max_span_length
  omega

theorem span_select_embeddings_zero {B W N E : Nat} (inp : AggInput B W N E) (b : Fin B)
    (t : Fin N) (k : Nat) (hk : ¬ ((k : Int) ≤ span_width (inp.offsets b t))) :
    span_select_embeddings inp b t k = 0 := by
  unfold span_select_embeddings
  rw [if_neg]
  simp [span_select_mask, hk]

theorem first_agg_eq {B W N E : Nat} (inp : AggInput B W N E) (b : Fin B) (t : Fin N)
    (s e : Int) (hse : inp.offsets b t = (s, e)) (h0 : 0 ≤ s) (hle : s ≤ e)
    (hsW : s.toNat < W) :
    first_agg inp b t = inp.embeddings b ⟨s.toNat, hsW⟩ := by
  have h0L : 0 < max_span_length inp.offsets := by
    have h := span_slot_lt_max_span_length inp.offsets b t 0
      (by rw [hse]; simp only [span_width]; omega)
    omega
  unfold first_agg
  rw [Finset.sum_eq_single_of_mem 0 (Finset.mem_range.mpr h0L)]
  · have hsel : span_select_embeddings inp b t 0 = inp.embeddings b ⟨s.toNat, hsW⟩ := by
      unfold span_select_embeddings span_select_mask
      rw [if_pos (decide_eq_true (by rw [hse]; simp only [span_width]; omega))]
      unfold emb_at
      rw [dif_pos (by rw [hse]; constructor <;> omega)]
      have hv : ((inp.offsets b t).1 + ((0 : ℕ) : Int)).toNat = s.toNat := by
        rw [hse]; simp
      exact congrArg _ (Fin.ext hv)
    rw [hsel]
    simp [mask_q]
  · intro k _ hk
    have : ¬ ((k : Int) ≤ 0) := by omega
    simp [mask_q, this]

theorem span_len_eq {B W N E : Nat} (inp : AggInput B W N E) (b : Fin B) (t : Fin N)
    (s e : Int) (hse : inp.offsets b t = (s, e)) (hle : s ≤ e) :
    span_len inp b t = (e - s).toNat + 1 := by
  have hsub : Finset.range ((e - s).toNat + 1) ⊆ Finset.range (max_span_length inp.offsets) := by
    intro k hk
    simp only [Finset.mem_range] at hk ⊢
    exact span_slot_lt_max_span_length inp.offsets b t k
      (by rw [hse]; simp only [span_width]; omega)
  unfold span_len
  rw [← Finset.sum_subset hsub]
  · calc
      ∑ k in Finset.range ((e - s).toNat + 1),
          (if span_select_mask inp b t k then (1 : ℕ) else 0) =
          ∑ _k in Finset.range ((e - s).toNat + 1), (1 : ℕ) := by
        apply Finset.sum_congr rfl
        intro k hk
        simp only [Finset.mem_range] at hk
        have hm : span_select_mask inp b t k = true := by
          simp only [span_select_mask, hse, span_width, decide_eq_true_eq]
          omega
        rw [if_pos hm]
      _ = (e - s).toNat + 1 := by simp
  · intro k _ hk
    simp only [Finset.mem_range] at hk
    have hm : ¬ (span_select_mask inp b t k = true) := by
      simp only [span_select_mask, hse, span_width, decide_eq_true_eq]
      omega
    rw [if_neg hm]

theorem avg_sum_eq {B W N E : Nat} (inp : AggInput B W N E) (b : Fin B) (t : Fin N)
    (s e : Int) (hse : inp.offsets b t = (s, e)) (hle : s ≤ e) :
    avg_sum inp b t =
      ∑ k in Finset.range ((e - s).toNat + 1), emb_at inp.embeddings b (s + k) := by
  have hsub : Finset.range ((e - s).toNat + 1) ⊆ Finset.range (max_span_length inp.offsets) := by
    intro k hk
    simp only [Finset.mem_range] at hk ⊢
    exact span_slot_lt_max_span_length inp.offsets b t k
      (by rw [hse]; simp only [span_width]; omega)
  unfold avg_sum
  rw [← Finset.sum_subset hsub]
  · apply Finset.sum_congr rfl
    intro k hk
    simp only [Finset.mem_range] at hk
    have hm : span_select_mask inp b t k = true := by
      simp only [span_select_mask, hse, span_width, decide_eq_true_eq]
      omega
    rw [span_select_embeddings, if_pos hm, hse, mask_q, if_pos hm, one_smul]
  · intro k _ hk
    simp only [Finset.mem_range] at hk
    have hm : ¬ ((k : Int) ≤ span_width (inp.offsets b t)) := by
      rw [hse]; simp only [span_width]; omega
    rw [span_select_embeddings_zero inp b t k hm, smul_zero]

theorem sum_range_emb_eq_sum_Icc {B W E : Nat} (emb : Fin B → Fin W → Fin E → ℚ) (b : Fin B)
    (s e : Int) (hle : s ≤ e) :
    ∑ k in Finset.range ((e - s).toNat + 1), emb_at emb b (s + k) =
      ∑ i in Finset.Icc s e, emb_at emb b i := by
  apply Finset.sum_nbij' (fun k : ℕ => s + (k : Int)) (fun i : Int => (i - s).toNat)
  · intro k hk
    simp only [Finset.mem_range] at hk
    simp only [Finset.mem_Icc]
    omega
  · intro i hi
    simp only [Finset.mem_Icc] at hi
    simp only [Finset.mem_range]
    omega
  · intro k hk
    simp only [Finset.mem_range] at hk
    omega
  · intro i hi
    simp only [Finset.mem_Icc] at hi
    omega
  · intro k _
    rfl

theorem avg_agg_eq {B W N E : Nat} (inp : AggInput B W N E) (b : Fin B) (t : Fin N)
    (s e : Int) (hse : inp.offsets b t = (s, e)) (hle : s ≤ e) :
    avg_agg inp b t =
      (1 / (((e - s).toNat + 1 : ℕ) : ℚ)) • ∑ i in Finset.Icc s e, emb_at inp.embeddings b i := by
  have hlen := span_len_eq inp b t s e hse hle
  unfold avg_agg
  rw [if_neg (by omega)]
  unfold avg_raw
  rw [hlen, avg_sum_eq inp b t s e hse hle, sum_range_emb_eq_sum_Icc inp.embeddings b s e hle]
  have hmax : max ((e - s).toNat + 1) 1 = (e - s).toNat + 1 := by omega
  rw [hmax]

theorem first_agg_zero_span {B W N E : Nat} (inp : AggInput B W N E) (b : Fin B) (t : Fin N)
    (hw : span_width (inp.offsets b t) < 0) : first_agg inp b t = 0 := by
  unfold first_agg
  apply Finset.sum_eq_zero
  intro k _
  rw [span_select_embeddings_zero inp b t k (by omega), smul_zero]

theorem span_len_zero_span {B W N E : Nat} (inp : AggInput B W N E) (b : Fin B) (t : Fin N)
    (hw : span_width (inp.offsets b t) < 0) : span_len inp b t = 0 := by
  unfold span_len
  apply Finset.sum_eq_zero
  intro k _
  rw [if_neg]
  simp only [span_select_mask, decide_eq_true_eq]
  omega

theorem avg_agg_zero_span {B W N E : Nat} (inp : AggInput B W N E) (b : Fin B) (t : Fin N)
    (hw : span_width (inp.offsets b t) < 0) : avg_agg inp b t = 0 := by
  unfold avg_agg
  rw [if_pos (span_len_zero_span inp b t hw)]

theorem forward_first_ok {B W N E : Nat} (inp : AggInput B W N E) :
    forward "first" inp = Except.ok (fun b t => first_agg inp b t) := rfl

theorem forward_avg_ok {B W N E : Nat} (inp : AggInput B W N E) :
    forward "avg" inp = Except.ok (fun b t => avg_agg inp b t) := rfl

theorem emb_at_C5_0 : emb_at inpC5.embeddings 0 0 = ![1, 1] := by
  unfold emb_at
  rw [dif_pos (by decide)]
  rfl

theorem emb_at_C5_1 : emb_at inpC5.embeddings 0 1 = ![3, 3] := by
  unfold emb_at
  rw [dif_pos (by decide)]
  rfl

theorem emb_at_C5_2 : emb_at inpC5.embeddings 0 2 = ![5, 5] := by
  unfold emb_at
  rw [dif_pos (by decide)]
  rfl

theorem avg_agg_C5 (b t : Fin 1) : avg_agg inpC5 b t = ![3, 3] := by
  rw [avg_agg_eq inpC5 b t 0 2 rfl (by decide)]
  rw [show Finset.Icc (0 : Int) 2 = {0, 1, 2} from by decide]
  rw [Finset.sum_insert (by decide), Finset.sum_insert (by decide), Finset.sum_singleton]
  rw [Fin.eq_zero b, emb_at_C5_0, emb_at_C5_1, emb_at_C5_2]
  funext j
  fin_cases j <;> norm_num [show Int.toNat 2 = 2 from rfl]

theorem first_agg_C5 (b t : Fin 1) : first_agg inpC5 b t = ![1, 1] := by
  rw [first_agg_eq inpC5 b t 0 2 rfl (by decide) (by decide) (by decide)]
  rfl

theorem first_agg_C6_0 (b : Fin 1) : first_agg inpC6 b 0 = ![2, 0] := by
  rw [first_agg_eq inpC6 b 0 0 0 rfl (by decide) (by decide) (by decide)]
  rfl

theorem first_agg_C6_1 (b : Fin 1) : first_agg inpC6 b 1 = ![4, 0] := by
  rw [first_agg_eq inpC6 b 1 1 2 rfl (by decide) (by decide) (by decide)]
  rfl

theorem emb_at_C6_0 : emb_at inpC6.embeddings 0 0 = ![2, 0] := by
  unfold emb_at
  rw [dif_pos (by decide)]
  rfl

theorem emb_at_C6_1 : emb_at inpC6.embeddings 0 1 = ![4, 0] := by
  unfold emb_at
  rw [dif_pos (by decide)]
  rfl

theorem emb_at_C6_2 : emb_at inpC6.embeddings 0 2 = ![6, 0] := by
  unfold emb_at
  rw [dif_pos (by decide)]
  rfl

theorem avg_agg_C6_0 (b : Fin 1) : avg_agg inpC6 b 0 = ![2, 0] := by
  rw [avg_agg_eq inpC6 b 0 0 0 rfl (by decide)]
  rw [show Finset.Icc (0 : Int) 0 = {0} from by decide, Finset.sum_singleton]
  rw [Fin.eq_zero b, emb_at_C6_0]
  funext j
  fin_cases j <;> norm_num [Int.toNat_ofNat]

theorem avg_agg_C6_1 (b : Fin 1) : avg_agg inpC6 b 1 = ![5, 0] := by
  rw [avg_agg_eq inpC6 b 1 1 2 rfl (by decide)]
  rw [show Finset.Icc (1 : Int) 2 = {1, 2} from by decide]
  rw [Finset.sum_insert (by decide), Finset.sum_singleton]
  rw [Fin.eq_zero b, emb_at_C6_1, emb_at_C6_2]
  funext j
  fin_cases j <;> norm_num [Int.toNat_ofNat]

/-- Claim C1: for every batch and every original token whose wordpiece span
has length zero (a padding token or a token with empty/sentinel offsets such
as `[0,-1]`, i.e. `end < start`), the output embedding returned by `forward`
is exactly the zero vector, in both "first" and "avg" `sub_token_mode`. -/
theorem forward_zero_length_span_is_zero_vector {B W N E : Nat} (inp : AggInput B W N E)
    (b : Fin B) (t : Fin N) (hw : span_width (inp.offsets b t) < 0)
    (f g : Fin B → Fin N → Fin E → ℚ)
    (hf : forward "first" inp = Except.ok f) (hg : forward "avg" inp = Except.ok g) :
    f b t = 0 ∧ g b t = 0 := by
  have h1 := forward_first_ok inp
  rw [hf] at h1
  have h2 := forward_avg_ok inp
  rw [hg] at h2
  constructor
  · rw [Except.ok.inj h1]
    exact first_agg_zero_span inp b t hw
  · rw [Except.ok.inj h2]
    exact avg_agg_zero_span inp b t hw

theorem forward_zero_length_span_is_zero_vector_witness :
    first_agg inpPad 0 0 = 0 ∧ avg_agg inpPad 0 0 = 0 :=
  forward_zero_length_span_is_zero_vector inpPad 0 0 (by decide)
    (fun b t => first_agg inpPad b t) (fun b t => avg_agg inpPad b t) rfl rfl

/-- Claim C2: in "first" mode, for every original token with a non-empty
span `[s, e]` (with `s` in range), the output embedding returned by `forward`
equals the wordpiece embedding at index `s`, independent of `e`. -/
theorem forward_first_mode_selects_first_subtoken {B W N E : Nat} (inp : AggInput B W N E)
    (b : Fin B) (t : Fin N) (s e : Int) (hse : inp.offsets b t = (s, e))
    (h0 : 0 ≤ s) (hle : s ≤ e) (hsW : s.toNat < W)
    (f : Fin B → Fin N → Fin E → ℚ) (hf : forward "first" inp = Except.ok f) :
    f b t = inp.embeddings b ⟨s.toNat, hsW⟩ := by
  have h1 := forward_first_ok inp
  rw [hf] at h1
  rw [Except.ok.inj h1]
  exact first_agg_eq inp b t s e hse h0 hle hsW

theorem forward_first_mode_selects_first_subtoken_witness :
    first_agg inpC5 0 0 = inpC5.embeddings 0 ⟨0, by decide⟩ :=
  forward_first_mode_selects_first_subtoken inpC5 0 0 0 2 rfl (by decide) (by decide)
    (by decide) (fun b t => first_agg inpC5 b t) rfl

/-- Claim C3: in "avg" mode, for every original token with a non-empty,
in-range span `[s, e]`, the output embedding returned by `forward` equals the
arithmetic mean of the wordpiece embeddings at indices `s..e` inclusive: the
sum of the `e - s + 1` vectors divided by their count. -/
theorem forward_avg_mode_is_arithmetic_mean {B W N E : Nat} (inp : AggInput B W N E)
    (b : Fin B) (t : Fin N) (s e : Int) (hse : inp.offsets b t = (s, e))
    (_h0 : 0 ≤ s) (hle : s ≤ e) (_heW : e < (W : Int))
    (g : Fin B → Fin N → Fin E → ℚ) (hg : forward "avg" inp = Except.ok g) :
    g b t = (1 / ((e - s + 1 : Int) : ℚ)) • ∑ i in Finset.Icc s e, emb_at inp.embeddings b i := by
  have h1 := forward_avg_ok inp
  rw [hg] at h1
  rw [Except.ok.inj h1]
  show avg_agg inp b t = _
  rw [avg_agg_eq inp b t s e hse hle]
  have hi : (((e - s).toNat + 1 : ℕ) : Int) = e - s + 1 := by omega
  have hc : (((e - s).toNat + 1 : ℕ) : ℚ) = ((e - s + 1 : Int) : ℚ) := by
    exact_mod_cast hi
  rw [hc]

theorem forward_avg_mode_is_arithmetic_mean_witness :
    avg_agg inpC5 0 0 =
      (1 / ((2 - 0 + 1 : Int) : ℚ)) • ∑ i in Finset.Icc (0 : Int) 2, emb_at inpC5.embeddings 0 i :=
  forward_avg_mode_is_arithmetic_mean inpC5 0 0 0 2 rfl (by decide) (by decide) (by decide)
    (fun b t => avg_agg inpC5 b t) rfl

/-- Claim C4: for every `sub_token_mode` value that is neither "first" nor
"avg", `forward` fails with the `ValueError` identifying the unrecognized
mode, and no result is returned to the caller. -/
theorem forward_invalid_mode_errors {B W N E : Nat} (mode : String) (inp : AggInput B W N E)
    (h1 : mode ≠ "first") (h2 : mode ≠ "avg") :
    forward mode inp = Except.error ("Do not recognise 'sub_token_mode' " ++ mode) := by
  unfold forward
  rw [if_neg h1, if_neg h2]

theorem forward_invalid_mode_errors_witness :
    forward "max" inpPad = Except.error ("Do not recognise 'sub_token_mode' " ++ "max") :=
  forward_invalid_mode_errors "max" inpPad (by decide) (by decide)

/-- Claim C5: for a batch of 1 with wordpiece embeddings
`[[1,1],[3,3],[5,5]]` (embedding size 2) and a single original token spanning
`[0,2]` inclusive, `forward` in "avg" mode yields `[3,3]` and in "first" mode
yields `[1,1]`. -/
theorem forward_scenario_single_token :
    forward "avg" inpC5 = Except.ok (fun _ _ => ![(3 : ℚ), 3]) ∧
      forward "first" inpC5 = Except.ok (fun _ _ => ![(1 : ℚ), 1]) := by
  constructor
  · rw [forward_avg_ok]
    exact congrArg Except.ok (funext fun b => funext fun t => avg_agg_C5 b t)
  · rw [forward_first_ok]
    exact congrArg Except.ok (funext fun b => funext fun t => first_agg_C5 b t)

/-- Claim C6: for two original tokens with spans `[0,0]` and `[1,2]` over
wordpiece embeddings `[[2,0],[4,0],[6,0]]`, `forward` in "avg" mode yields
`[[2,0],[5,0]]` and in "first" mode yields `[[2,0],[4,0]]`; the shorter span,
padded to the batch's maximal span length 2, contributes no padding positions
to either result. -/
theorem forward_scenario_two_tokens :
    forward "avg" inpC6 = Except.ok (fun _ => ![![(2 : ℚ), 0], ![5, 0]]) ∧
      forward "first" inpC6 = Except.ok (fun _ => ![![(2 : ℚ), 0], ![4, 0]]) := by
  constructor
  · rw [forward_avg_ok]
    refine congrArg Except.ok (funext fun b => funext fun t => ?_)
    fin_cases t
    · exact avg_agg_C6_0 b
    · exact avg_agg_C6_1 b
  · rw [forward_first_ok]
    refine congrArg Except.ok (funext fun b => funext fun t => ?_)
    fin_cases t
    · exact first_agg_C6_0 b
    · exact first_agg_C6_1 b

/-- Claim C7: aggregation is deterministic and stateless: a `forward` call
leaves the embedder state unchanged, and a second call on the resulting
state with identical inputs returns the identical output. -/
theorem forward_call_deterministic_stateless {B W N E : Nat}
    (self : PretrainedTransformerMismatchedEmbedder) (inp : AggInput B W N E) :
    (forward_call self inp).2 = self ∧
      (forward_call ((forward_call self inp).2) inp).1 = (forward_call self inp).1 :=
  ⟨rfl, rfl⟩

/-- Claim C8: in "avg" mode the division of line 162 is always well-defined:
the per-token divisor is the valid sub-token count clamped to a minimum of 1,
hence at least 1 for every input; and every token whose true valid sub-token
count is zero ends up with the exact zero vector after the overwrite of line
165. -/
theorem avg_divisor_clamped_and_zero_overwrite {B W N E : Nat} (inp : AggInput B W N E)
    (b : Fin B) (t : Fin N) :
    1 ≤ max (span_len inp b t) 1 ∧ (span_len inp b t = 0 → avg_agg inp b t = 0) :=
  ⟨Nat.le_max_right _ _, fun h => by unfold avg_agg; rw [if_pos h]⟩

theorem avg_divisor_clamped_and_zero_overwrite_witness :
    1 ≤ max (span_len inpPad 0 0) 1 ∧ avg_agg inpPad 0 0 = 0 :=
  ⟨(avg_divisor_clamped_and_zero_overwrite inpPad 0 0).1,
    (avg_divisor_clamped_and_zero_overwrite inpPad 0 0).2 (by decide)⟩

/-- Claim C9: in either mode, the wordpiece-embedding tensor produced by the
wrapped encoder (buffer 0 of the call-scoped store) is never mutated in
place: after `forward` its buffer still holds the adapter's output values,
and the returned tensor is a different buffer. -/
theorem forward_store_preserves_adapter_output {B W N E : Nat} (mode : String)
    (inp : AggInput B W N E) :
    match forward_store mode inp with
    | Except.error _ => True
    | Except.ok (rid, st) =>
        store_read st 0 = some (TVal.t3 inp.embeddings) ∧ rid ≠ 0 := by
  by_cases h1 : mode = "first"
  · subst h1
    exact ⟨rfl, Nat.succ_ne_zero 4⟩
  · by_cases h2 : mode = "avg"
    · subst h2
      exact ⟨rfl, Nat.succ_ne_zero 4⟩
    · have he : forward_store mode inp =
          Except.error ("Do not recognise 'sub_token_mode' " ++ mode) := by
        simp only [forward_store, alloc, store_write]
        rw [if_neg h1, if_neg h2]
      rw [he]
      trivial

/-- Claim C10: constructing the embedder with any `sub_token_mode` string
whatsoever succeeds and stores the string unvalidated; the invalid-mode error
is raised only when `forward` is subsequently invoked. -/
theorem mk_embedder_defers_mode_validation (m : String) :
    (mk_embedder m).sub_token_mode = m ∧
      (∀ {B W N E : Nat} (inp : AggInput B W N E), m ≠ "first" → m ≠ "avg" →
        (forward_call (mk_embedder m) inp).1 =
          Except.error ("Do not recognise 'sub_token_mode' " ++ m)) := by
  refine ⟨rfl, ?_⟩
  intro B W N E inp h1 h2
  show forward m inp = _
  unfold forward
  rw [if_neg h1, if_neg h2]

theorem mk_embedder_defers_mode_validation_witness :
    (mk_embedder "max").sub_token_mode = "max" ∧
      (forward_call (mk_embedder "max") inpPad).1 =
        Except.error ("Do not recognise 'sub_token_mode' " ++ "max") :=
  ⟨(mk_embedder_defers_mode_validation "max").1,
    (mk_embedder_defers_mode_validation "max").2 inpPad (by decide) (by decide)⟩

end MismatchedEmbedder
